import Mathlib

/-
Shallow embedding of the 6502 CPU emulator in src/cpu.rs, src/opcodes.rs and
src/ref_cpu.rs of the nes_emulator repository.

Machine integers are modelled as Nat with explicit wrap-around (% 256 for u8,
% 65536 for u16) exactly where the Rust code wraps.  Fallible operations
(array indexing that can panic, the fatal implicit-addressing resolution, the
fatal unknown-opcode lookup) return Option: none is the panic.  The CPU's
memory is the Rust array `[u8; 0xFFFF]`, i.e. 0xFFFF = 65535 cells with valid
indices 0 .. 0xFFFE; it is modelled as a total function together with the
bound check that the Rust indexing performs.
-/

namespace Nes

/-- Status flag bit CARRY (bitflags CpuFlags in cpu.rs). -/
def CARRY : Nat := 0x01

/-- Status flag bit ZERO. -/
def ZERO : Nat := 0x02

/-- Status flag bit INTERRUPT_DISABLE. -/
def INTERRUPT_DISABLE : Nat := 0x04

/-- Status flag bit DECIMAL_MODE. -/
def DECIMAL_MODE : Nat := 0x08

/-- Status flag bit BREAK. -/
def BREAK : Nat := 0x10

/-- Status flag bit BREAK2. -/
def BREAK2 : Nat := 0x20

/-- Status flag bit OVERFLOW. -/
def OVERFLOW : Nat := 0x40

/-- Status flag bit NEGATIVE. -/
def NEGATIVE : Nat := 0x80

/-- bitflags `insert`: set the bits of `f` in `st`. -/
def insertFlag (st f : Nat) : Nat := st ||| f

/-- bitflags `remove`: clear the bits of `f` in `st` (`bits &= !f` on a u8). -/
def removeFlag (st f : Nat) : Nat := st &&& (0xFF ^^^ f)

/-- bitflags `contains`: all bits of `f` are set in `st`. -/
def containsFlag (st f : Nat) : Bool := st &&& f == f

/-- bitflags `set`: insert or remove `f` depending on `b`. -/
def setFlag (st f : Nat) (b : Bool) : Nat :=
  if b then insertFlag st f else removeFlag st f

/-- cpu.rs: `const STACK_AREA: u16 = 0x0100`. -/
def STACK_AREA : Nat := 0x0100

/-- cpu.rs: `const STACK_RESET: u8 = 0xFF`. -/
def STACK_RESET : Nat := 0xFF

/-- The length of the Rust memory array `[u8; 0xFFFF]`: 65535 bytes, so the
valid indices are 0 .. 0xFFFE and indexing at 0xFFFF panics. -/
def MEMORY_SIZE : Nat := 0xFFFF

/-- CPU state of `struct MyCPU` in cpu.rs (identical to `struct CPU` in
ref_cpu.rs).  `memory` is the backing function of the `[u8; 0xFFFF]` array;
reads and writes go through `mem_read`/`mem_write`, which perform the
array-bound check. -/
structure MyCPU where
  register_a : Nat
  register_x : Nat
  register_y : Nat
  status : Nat
  program_counter : Nat
  stack_pointer : Nat
  memory : Nat → Nat

/-- The `AddressingMode` enum of cpu.rs. -/
inductive AddressingMode where
  | Immediate
  | ZeroPage
  | ZeroPage_X
  | ZeroPage_Y
  | Absolute
  | Absolute_X
  | Absolute_Y
  | Indirect_X
  | Indirect_Y
  | NoneAddressing
deriving DecidableEq, Repr

/-- `mem_read`: `self.memory[addr as usize]`; indexing the 0xFFFF-element
array panics (none) when addr = 0xFFFF. -/
def mem_read (s : MyCPU) (addr : Nat) : Option Nat :=
  if addr < MEMORY_SIZE then some (s.memory addr) else none

/-- `mem_write`: `self.memory[addr as usize] = data`, with the same bound. -/
def mem_write (s : MyCPU) (addr data : Nat) : Option MyCPU :=
  if addr < MEMORY_SIZE then
    some { s with memory := fun i => if i = addr then data else s.memory i }
  else none

/-- `mem_read_u16`: lo at `pos`, hi at `pos + 1`, result `hi << 8 | lo`. -/
def mem_read_u16 (s : MyCPU) (pos : Nat) : Option Nat := do
  let lo ← mem_read s pos
  let hi ← mem_read s (pos + 1)
  return (hi <<< 8) ||| lo

/-- `mem_write_u16`: lo at `pos`, hi at `pos + 1`. -/
def mem_write_u16 (s : MyCPU) (pos data : Nat) : Option MyCPU := do
  let hi := data >>> 8
  let lo := data &&& 0xFF
  let s1 ← mem_write s pos lo
  mem_write s1 (pos + 1) hi

/-- u8 `wrapping_add`. -/
def u8_wrapping_add (a b : Nat) : Nat := (a + b) % 256

/-- u8 `wrapping_sub`. -/
def u8_wrapping_sub (a b : Nat) : Nat := (a + 256 - b % 256) % 256

/-- u8 `wrapping_neg` (two's-complement negation of the byte). -/
def u8_wrapping_neg (a : Nat) : Nat := (256 - a % 256) % 256

/-- u16 `wrapping_add`. -/
def u16_wrapping_add (a b : Nat) : Nat := (a + b) % 65536

/-- u8 `<< 1` (high bit discarded). -/
def u8_shl (a : Nat) : Nat := (a <<< 1) % 256

/-- u8 `rotate_left(1)`: bit 7 moves into bit 0. -/
def u8_rotate_left (a : Nat) : Nat := ((a <<< 1) % 256) ||| (a % 256 >>> 7)

/-- u8 `rotate_right(1)`: bit 0 moves into bit 7. -/
def u8_rotate_right (a : Nat) : Nat := (a % 256 >>> 1) ||| ((a &&& 1) <<< 7)

/-- `MyCPU::new`. -/
def MyCPU.new : MyCPU where
  register_a := 0
  register_x := 0
  register_y := 0
  status := INTERRUPT_DISABLE ||| BREAK2
  program_counter := 0x8000
  stack_pointer := STACK_RESET
  memory := fun _ => 0

/-- `update_zero_and_negative_flags` acting on the status byte:
ZERO := result == 0, then NEGATIVE := result & 0x80 != 0. -/
def update_zero_and_negative_flags (st result : Nat) : Nat :=
  setFlag (setFlag st ZERO (result == 0)) NEGATIVE (result &&& 0x80 != 0)

/-- `get_operand_address`: effective operand address per addressing mode.
`NoneAddressing` panics ("mode is not supported"): none. -/
def get_operand_address (s : MyCPU) (mode : AddressingMode) : Option Nat :=
  match mode with
  | .Immediate => some s.program_counter
  | .ZeroPage => mem_read s s.program_counter
  | .Absolute => mem_read_u16 s s.program_counter
  | .ZeroPage_X => do
      let pos ← mem_read s s.program_counter
      return u8_wrapping_add pos s.register_x
  | .ZeroPage_Y => do
      let pos ← mem_read s s.program_counter
      return u8_wrapping_add pos s.register_y
  | .Absolute_X => do
      let base ← mem_read_u16 s s.program_counter
      return u16_wrapping_add base s.register_x
  | .Absolute_Y => do
      let base ← mem_read_u16 s s.program_counter
      return u16_wrapping_add base s.register_y
  | .Indirect_X => do
      let base ← mem_read s s.program_counter
      let ptr := u8_wrapping_add base s.register_x
      let lo ← mem_read s ptr
      let hi ← mem_read s (u8_wrapping_add ptr 1)
      return (hi <<< 8) ||| lo
  | .Indirect_Y => do
      let base ← mem_read s s.program_counter
      let lo ← mem_read s base
      let hi ← mem_read s (u8_wrapping_add base 1)
      let deref_base := (hi <<< 8) ||| lo
      return u16_wrapping_add deref_base s.register_y
  | .NoneAddressing => none

/-- `stack_push`: write at 0x0100 + sp, then sp := sp.wrapping_sub(1). -/
def stack_push (s : MyCPU) (data : Nat) : Option MyCPU := do
  let s1 ← mem_write s (STACK_AREA + s.stack_pointer) data
  return { s1 with stack_pointer := u8_wrapping_sub s1.stack_pointer 1 }

/-- `stack_push_u16`: push the high byte, then the low byte. -/
def stack_push_u16 (s : MyCPU) (data : Nat) : Option MyCPU := do
  let hi := data >>> 8
  let lo := data &&& 0xFF
  let s1 ← stack_push s hi
  stack_push s1 lo

/-- `stack_pop`: sp := sp.wrapping_add(1), then read at 0x0100 + sp. -/
def stack_pop (s : MyCPU) : Option (MyCPU × Nat) :=
  let s1 := { s with stack_pointer := u8_wrapping_add s.stack_pointer 1 }
  (mem_read s1 (STACK_AREA + s1.stack_pointer)).map fun v => (s1, v)

/-- `stack_pop_u16`: pop lo, pop hi, result `hi << 8 | lo`. -/
def stack_pop_u16 (s : MyCPU) : Option (MyCPU × Nat) := do
  let (s1, lo) ← stack_pop s
  let (s2, hi) ← stack_pop s1
  return (s2, (hi <<< 8) ||| lo)

/-- `add_to_acc` (cpu.rs lines 276-288): the shared ADC/SBC core.  The u16
sum `a + data + carry` cannot overflow for byte inputs, so plain Nat
addition is exact; `sum as u8` is `% 256`. -/
def add_to_acc (s : MyCPU) (data : Nat) : MyCPU :=
  let carry := if containsFlag s.status CARRY then 1 else 0
  let sum := s.register_a + data + carry
  let st1 := setFlag s.status CARRY (decide (sum > 0xFF))
  let result := sum % 256
  let st2 := setFlag st1 OVERFLOW
    ((data ^^^ result) &&& (result ^^^ s.register_a) &&& 0x80 != 0)
  { s with register_a := result,
           status := update_zero_and_negative_flags st2 result }

/-- `adc`. -/
def adc (s : MyCPU) (mode : AddressingMode) : Option MyCPU := do
  let addr ← get_operand_address s mode
  let data ← mem_read s addr
  return add_to_acc s data

/-- `sbc` of cpu.rs: adds the two's-complement wrapping negation of the
operand (`value.wrapping_neg()`) to the accumulator. -/
def sbc (s : MyCPU) (mode : AddressingMode) : Option MyCPU := do
  let addr ← get_operand_address s mode
  let value ← mem_read s addr
  return add_to_acc s (u8_wrapping_neg value)

/-- `and`: A := value & A. -/
def and (s : MyCPU) (mode : AddressingMode) : Option MyCPU := do
  let addr ← get_operand_address s mode
  let value ← mem_read s addr
  let a := value &&& s.register_a
  return { s with register_a := a,
                  status := update_zero_and_negative_flags s.status a }

/-- `asl`: accumulator variant when the mode matches NoneAddressing,
otherwise memory variant. -/
def asl (s : MyCPU) (mode : AddressingMode) : Option MyCPU :=
  if mode = .NoneAddressing then
    let st := setFlag s.status CARRY (s.register_a &&& 0x80 != 0)
    let a := u8_shl s.register_a
    some { s with register_a := a, status := update_zero_and_negative_flags st a }
  else do
    let addr ← get_operand_address s mode
    let value ← mem_read s addr
    let st := setFlag s.status CARRY (value &&& 0x80 != 0)
    let v := u8_shl value
    let s1 ← mem_write { s with status := st } addr v
    return { s1 with status := update_zero_and_negative_flags s1.status v }

/-- `branch` of MyCPU (cpu.rs lines 346-351): when taken, reads the
displacement byte at PC and computes
`PC.wrapping_add(1).wrapping_add(value as u16)` — `value` is a u8, so the
cast zero-extends the displacement. -/
def branch (s : MyCPU) (condition : Bool) : Option MyCPU :=
  if condition then do
    let value ← mem_read s s.program_counter
    return { s with program_counter :=
      u16_wrapping_add (u16_wrapping_add s.program_counter 1) value }
  else some s

/-- `bcc`. -/
def bcc (s : MyCPU) : Option MyCPU := branch s (!containsFlag s.status CARRY)

/-- `bcs`. -/
def bcs (s : MyCPU) : Option MyCPU := branch s (containsFlag s.status CARRY)

/-- `beq`. -/
def beq (s : MyCPU) : Option MyCPU := branch s (containsFlag s.status ZERO)

/-- `bmi`. -/
def bmi (s : MyCPU) : Option MyCPU := branch s (containsFlag s.status NEGATIVE)

/-- `bne`. -/
def bne (s : MyCPU) : Option MyCPU := branch s (!containsFlag s.status ZERO)

/-- `bpl`. -/
def bpl (s : MyCPU) : Option MyCPU := branch s (!containsFlag s.status NEGATIVE)

/-- `bvc`. -/
def bvc (s : MyCPU) : Option MyCPU := branch s (!containsFlag s.status OVERFLOW)

/-- `bvs`. -/
def bvs (s : MyCPU) : Option MyCPU := branch s (containsFlag s.status OVERFLOW)

/-- `bit`. -/
def bit (s : MyCPU) (mode : AddressingMode) : Option MyCPU := do
  let addr ← get_operand_address s mode
  let data ← mem_read s addr
  let st1 := setFlag s.status ZERO (data &&& s.register_a == 0)
  let st2 := setFlag st1 OVERFLOW (data &&& 0x40 != 0)
  return { s with status := setFlag st2 NEGATIVE (data &&& 0x80 != 0) }

/-- `clc`. -/
def clc (s : MyCPU) : MyCPU := { s with status := removeFlag s.status CARRY }

/-- `cld`. -/
def cld (s : MyCPU) : MyCPU := { s with status := removeFlag s.status DECIMAL_MODE }

/-- `cli`. -/
def cli (s : MyCPU) : MyCPU := { s with status := removeFlag s.status INTERRUPT_DISABLE }

/-- `clv`. -/
def clv (s : MyCPU) : MyCPU := { s with status := removeFlag s.status OVERFLOW }

/-- `compare`: CARRY := reference >= data, then Z/N on the wrapping
difference. -/
def compare (s : MyCPU) (mode : AddressingMode) (reference : Nat) : Option MyCPU := do
  let addr ← get_operand_address s mode
  let data ← mem_read s addr
  let st1 := setFlag s.status CARRY (decide (reference ≥ data))
  return { s with status :=
    update_zero_and_negative_flags st1 (u8_wrapping_sub reference data) }

/-- `cmp`. -/
def cmp (s : MyCPU) (mode : AddressingMode) : Option MyCPU := compare s mode s.register_a

/-- `cpx`. -/
def cpx (s : MyCPU) (mode : AddressingMode) : Option MyCPU := compare s mode s.register_x

/-- `cpy`. -/
def cpy (s : MyCPU) (mode : AddressingMode) : Option MyCPU := compare s mode s.register_y

/-- `dec`. -/
def dec (s : MyCPU) (mode : AddressingMode) : Option MyCPU := do
  let addr ← get_operand_address s mode
  let value ← mem_read s addr
  let new_value := u8_wrapping_sub value 1
  let s1 ← mem_write s addr new_value
  return { s1 with status := update_zero_and_negative_flags s1.status new_value }

/-- `dex`. -/
def dex (s : MyCPU) : MyCPU :=
  let x := u8_wrapping_sub s.register_x 1
  { s with register_x := x, status := update_zero_and_negative_flags s.status x }

/-- `dey`. -/
def dey (s : MyCPU) : MyCPU :=
  let y := u8_wrapping_sub s.register_y 1
  { s with register_y := y, status := update_zero_and_negative_flags s.status y }

/-- `inc`. -/
def inc (s : MyCPU) (mode : AddressingMode) : Option MyCPU := do
  let addr ← get_operand_address s mode
  let value ← mem_read s addr
  let new_value := u8_wrapping_add value 1
  let s1 ← mem_write s addr new_value
  return { s1 with status := update_zero_and_negative_flags s1.status new_value }

/-- `inx`. -/
def inx (s : MyCPU) : MyCPU :=
  let x := u8_wrapping_add s.register_x 1
  { s with register_x := x, status := update_zero_and_negative_flags s.status x }

/-- `iny`. -/
def iny (s : MyCPU) : MyCPU :=
  let y := u8_wrapping_add s.register_y 1
  { s with register_y := y, status := update_zero_and_negative_flags s.status y }

/-- `eor`. -/
def eor (s : MyCPU) (mode : AddressingMode) : Option MyCPU := do
  let addr ← get_operand_address s mode
  let value ← mem_read s addr
  let a := s.register_a ^^^ value
  return { s with register_a := a,
                  status := update_zero_and_negative_flags s.status a }

/-- `jmp` (cpu.rs lines 443-459): reads the 16-bit address at PC; for the
Absolute mode jumps there directly, otherwise resolves indirectly, and when
the pointer's low byte is 0xFF the high byte of the target is read from
`pointer & 0xFF00` instead of `pointer + 1` (the 6502 page-boundary bug). -/
def jmp (s : MyCPU) (mode : AddressingMode) : Option MyCPU := do
  let addr ← mem_read_u16 s s.program_counter
  if mode = .Absolute then
    return { s with program_counter := addr }
  else
    let indirect_addr ←
      if addr &&& 0x00FF = 0x00FF then do
        let lo ← mem_read s addr
        let hi ← mem_read s (addr &&& 0xFF00)
        pure ((hi <<< 8) ||| lo)
      else mem_read_u16 s addr
    return { s with program_counter := indirect_addr }

/-- `jsr`: push PC + 2 - 1, then PC := 16-bit target at PC. -/
def jsr (s : MyCPU) : Option MyCPU := do
  let s1 ← stack_push_u16 s (s.program_counter + 2 - 1)
  let target ← mem_read_u16 s1 s1.program_counter
  return { s1 with program_counter := target }

/-- `rts`: PC := popped u16 + 1. -/
def rts (s : MyCPU) : Option MyCPU := do
  let (s1, v) ← stack_pop_u16 s
  return { s1 with program_counter := v + 1 }

/-- `lda`. -/
def lda (s : MyCPU) (mode : AddressingMode) : Option MyCPU := do
  let addr ← get_operand_address s mode
  let value ← mem_read s addr
  return { s with register_a := value,
                  status := update_zero_and_negative_flags s.status value }

/-- `ldx`. -/
def ldx (s : MyCPU) (mode : AddressingMode) : Option MyCPU := do
  let addr ← get_operand_address s mode
  let value ← mem_read s addr
  return { s with register_x := value,
                  status := update_zero_and_negative_flags s.status value }

/-- `ldy`. -/
def ldy (s : MyCPU) (mode : AddressingMode) : Option MyCPU := do
  let addr ← get_operand_address s mode
  let value ← mem_read s addr
  return { s with register_y := value,
                  status := update_zero_and_negative_flags s.status value }

/-- `lsr` of cpu.rs: the accumulator variant is selected by
`matches!(mode, AddressingMode::Immediate)` — not by NoneAddressing as in
`asl`/`rol`/`ror` — so a NoneAddressing descriptor falls into the memory
variant and hits the fatal resolver. -/
def lsr (s : MyCPU) (mode : AddressingMode) : Option MyCPU :=
  if mode = .Immediate then
    let st := setFlag s.status CARRY (s.register_a &&& 0x01 == 1)
    let a := s.register_a >>> 1
    some { s with register_a := a, status := update_zero_and_negative_flags st a }
  else do
    let addr ← get_operand_address s mode
    let value ← mem_read s addr
    let st := setFlag s.status CARRY (value &&& 0x01 == 1)
    let v := value >>> 1
    let s1 ← mem_write { s with status := st } addr v
    return { s1 with status := update_zero_and_negative_flags s1.status v }

/-- `nop`. -/
def nop (s : MyCPU) : MyCPU := s

/-- `ora`. -/
def ora (s : MyCPU) (mode : AddressingMode) : Option MyCPU := do
  let addr ← get_operand_address s mode
  let data ← mem_read s addr
  let a := s.register_a ||| data
  return { s with register_a := a,
                  status := update_zero_and_negative_flags s.status a }

/-- `sta`. -/
def sta (s : MyCPU) (mode : AddressingMode) : Option MyCPU := do
  let addr ← get_operand_address s mode
  mem_write s addr s.register_a

/-- `stx`. -/
def stx (s : MyCPU) (mode : AddressingMode) : Option MyCPU := do
  let addr ← get_operand_address s mode
  mem_write s addr s.register_x

/-- `sty`. -/
def sty (s : MyCPU) (mode : AddressingMode) : Option MyCPU := do
  let addr ← get_operand_address s mode
  mem_write s addr s.register_y

/-- `pha`. -/
def pha (s : MyCPU) : Option MyCPU := stack_push s s.register_a

/-- `php` (cpu.rs lines 543-549): push status with BREAK and BREAK2
inserted. -/
def php (s : MyCPU) : Option MyCPU :=
  let flags := insertFlag (insertFlag s.status BREAK) BREAK2
  stack_push s flags

/-- `pla`. -/
def pla (s : MyCPU) : Option MyCPU := do
  let (s1, v) ← stack_pop s
  return { s1 with register_a := v,
                   status := update_zero_and_negative_flags s1.status v }

/-- `plp` (cpu.rs lines 556-561): status.bits := popped byte, then remove
BREAK and insert BREAK2. -/
def plp (s : MyCPU) : Option MyCPU := do
  let (s1, v) ← stack_pop s
  return { s1 with status := insertFlag (removeFlag v BREAK) BREAK2 }

/-- `rti`: pop flags (BREAK cleared, BREAK2 forced), then PC := popped u16. -/
def rti (s : MyCPU) : Option MyCPU := do
  let (s1, v) ← stack_pop s
  let s2 := { s1 with status := insertFlag (removeFlag v BREAK) BREAK2 }
  let (s3, pc) ← stack_pop_u16 s2
  return { s3 with program_counter := pc }

/-- `highest_bit_set`. -/
def highest_bit_set (value : Nat) : Bool := value &&& 0x80 != 0

/-- `lowest_bit_set`. -/
def lowest_bit_set (value : Nat) : Bool := value &&& 0x01 != 0

/-- `rol` (cpu.rs lines 572-586): plain 8-bit left rotation; CARRY := old
bit 7.  The accumulator variant updates Z/N, the memory variant sets only
NEGATIVE and writes the result back. -/
def rol (s : MyCPU) (mode : AddressingMode) : Option MyCPU :=
  if mode = .NoneAddressing then
    let result := u8_rotate_left s.register_a
    let st := setFlag s.status CARRY (highest_bit_set s.register_a)
    some { s with status := update_zero_and_negative_flags st result,
                  register_a := result }
  else do
    let addr ← get_operand_address s mode
    let value ← mem_read s addr
    let result := u8_rotate_left value
    let st1 := setFlag s.status CARRY (highest_bit_set value)
    let st2 := setFlag st1 NEGATIVE (result >>> 7 == 1)
    mem_write { s with status := st2 } addr result

/-- `ror` (cpu.rs lines 596-610): plain 8-bit right rotation; CARRY := old
bit 0; memory variant sets only NEGATIVE and writes back. -/
def ror (s : MyCPU) (mode : AddressingMode) : Option MyCPU :=
  if mode = .NoneAddressing then
    let result := u8_rotate_right s.register_a
    let st := setFlag s.status CARRY (lowest_bit_set s.register_a)
    some { s with status := update_zero_and_negative_flags st result,
                  register_a := result }
  else do
    let addr ← get_operand_address s mode
    let value ← mem_read s addr
    let result := u8_rotate_right value
    let st1 := setFlag s.status CARRY (lowest_bit_set value)
    let st2 := setFlag st1 NEGATIVE (result >>> 7 == 1)
    mem_write { s with status := st2 } addr result

/-- `sec`. -/
def sec (s : MyCPU) : MyCPU := { s with status := insertFlag s.status CARRY }

/-- `sed`. -/
def sed (s : MyCPU) : MyCPU := { s with status := insertFlag s.status DECIMAL_MODE }

/-- `sei`. -/
def sei (s : MyCPU) : MyCPU := { s with status := insertFlag s.status INTERRUPT_DISABLE }

/-- `tax`. -/
def tax (s : MyCPU) : MyCPU :=
  { s with register_x := s.register_a,
           status := update_zero_and_negative_flags s.status s.register_a }

/-- `tay`. -/
def tay (s : MyCPU) : MyCPU :=
  { s with register_y := s.register_a,
           status := update_zero_and_negative_flags s.status s.register_a }

/-- `tsx`. -/
def tsx (s : MyCPU) : MyCPU :=
  { s with register_x := s.stack_pointer,
           status := update_zero_and_negative_flags s.status s.stack_pointer }

/-- `txa`. -/
def txa (s : MyCPU) : MyCPU :=
  { s with register_a := s.register_x,
           status := update_zero_and_negative_flags s.status s.register_x }

/-- `txs`. -/
def txs (s : MyCPU) : MyCPU := { s with stack_pointer := s.register_x }

/-- `tya`. -/
def tya (s : MyCPU) : MyCPU :=
  { s with register_a := s.register_y,
           status := update_zero_and_negative_flags s.status s.register_y }

/-- `struct OpCode` of opcodes.rs. -/
structure OpCode where
  code : Nat
  mnemonic : String
  len : Nat
  cycles : Nat
  mode : AddressingMode

set_option maxHeartbeats 1600000 in
/-- The `CPU_OPS_CODES` table of opcodes.rs, entry for entry. -/
def CPU_OPS_CODES : List OpCode := [
  { code := 0x69, mnemonic := "ADC", len := 2, cycles := 2, mode := .Immediate },
  { code := 0x29, mnemonic := "AND", len := 2, cycles := 2, mode := .Immediate },
  { code := 0x0A, mnemonic := "ASL", len := 2, cycles := 2, mode := .Immediate },
  { code := 0x90, mnemonic := "BCC", len := 2, cycles := 2, mode := .Immediate },
  { code := 0xB0, mnemonic := "BCS", len := 2, cycles := 2, mode := .Immediate },
  { code := 0xF0, mnemonic := "BEQ", len := 2, cycles := 2, mode := .Immediate },
  { code := 0x24, mnemonic := "BIT", len := 2, cycles := 2, mode := .Immediate },
  { code := 0x30, mnemonic := "BMI", len := 2, cycles := 2, mode := .Immediate },
  { code := 0xD0, mnemonic := "BNE", len := 2, cycles := 2, mode := .Immediate },
  { code := 0x10, mnemonic := "BPL", len := 2, cycles := 2, mode := .Immediate },
  { code := 0x00, mnemonic := "BRK", len := 1, cycles := 7, mode := .NoneAddressing },
  { code := 0x50, mnemonic := "BVC", len := 2, cycles := 2, mode := .Immediate },
  { code := 0x70, mnemonic := "BVS", len := 2, cycles := 2, mode := .Immediate },
  { code := 0x18, mnemonic := "CLC", len := 1, cycles := 2, mode := .Immediate },
  { code := 0xD8, mnemonic := "CLD", len := 1, cycles := 2, mode := .Immediate },
  { code := 0x58, mnemonic := "CLI", len := 1, cycles := 2, mode := .Immediate },
  { code := 0xB8, mnemonic := "CLV", len := 1, cycles := 2, mode := .Immediate },
  { code := 0xC9, mnemonic := "CMP", len := 2, cycles := 2, mode := .Immediate },
  { code := 0xE0, mnemonic := "CPX", len := 2, cycles := 2, mode := .Immediate },
  { code := 0xC0, mnemonic := "CPY", len := 2, cycles := 2, mode := .Immediate },
  { code := 0xC6, mnemonic := "DEC", len := 2, cycles := 5, mode := .ZeroPage },
  { code := 0xD6, mnemonic := "DEC", len := 2, cycles := 6, mode := .ZeroPage_X },
  { code := 0xCE, mnemonic := "DEC", len := 3, cycles := 6, mode := .Absolute },
  { code := 0xDE, mnemonic := "DEC", len := 3, cycles := 7, mode := .Absolute_X },
  { code := 0xCA, mnemonic := "DEX", len := 1, cycles := 2, mode := .Immediate },
  { code := 0x88, mnemonic := "DEY", len := 1, cycles := 2, mode := .Immediate },
  { code := 0x49, mnemonic := "EOR", len := 2, cycles := 2, mode := .Immediate },
  { code := 0xE6, mnemonic := "INC", len := 2, cycles := 5, mode := .ZeroPage },
  { code := 0xF6, mnemonic := "INC", len := 2, cycles := 6, mode := .ZeroPage_X },
  { code := 0xEE, mnemonic := "INC", len := 3, cycles := 6, mode := .Absolute },
  { code := 0xFE, mnemonic := "INC", len := 3, cycles := 7, mode := .Absolute_X },
  { code := 0xE8, mnemonic := "INX", len := 1, cycles := 2, mode := .NoneAddressing },
  { code := 0xC8, mnemonic := "INY", len := 1, cycles := 2, mode := .NoneAddressing },
  { code := 0x4C, mnemonic := "JMP", len := 1, cycles := 2, mode := .NoneAddressing },
  { code := 0x20, mnemonic := "JSR", len := 1, cycles := 2, mode := .NoneAddressing },
  { code := 0xA9, mnemonic := "LDA", len := 2, cycles := 2, mode := .Immediate },
  { code := 0xA5, mnemonic := "LDA", len := 2, cycles := 3, mode := .ZeroPage },
  { code := 0xB5, mnemonic := "LDA", len := 2, cycles := 4, mode := .ZeroPage_X },
  { code := 0xAD, mnemonic := "LDA", len := 3, cycles := 4, mode := .Absolute },
  { code := 0xBD, mnemonic := "LDA", len := 3, cycles := 4, mode := .Absolute_X },
  { code := 0xB9, mnemonic := "LDA", len := 3, cycles := 4, mode := .Absolute_Y },
  { code := 0xA1, mnemonic := "LDA", len := 2, cycles := 6, mode := .Indirect_X },
  { code := 0xB1, mnemonic := "LDA", len := 2, cycles := 5, mode := .Indirect_Y },
  { code := 0xA2, mnemonic := "LDX", len := 2, cycles := 2, mode := .Immediate },
  { code := 0xA6, mnemonic := "LDX", len := 2, cycles := 3, mode := .ZeroPage },
  { code := 0xB6, mnemonic := "LDX", len := 2, cycles := 4, mode := .ZeroPage_Y },
  { code := 0xAE, mnemonic := "LDX", len := 3, cycles := 4, mode := .Absolute },
  { code := 0xBE, mnemonic := "LDX", len := 3, cycles := 4, mode := .Absolute_Y },
  { code := 0xA0, mnemonic := "LDY", len := 2, cycles := 2, mode := .Immediate },
  { code := 0xA4, mnemonic := "LDY", len := 2, cycles := 3, mode := .ZeroPage },
  { code := 0xB4, mnemonic := "LDY", len := 2, cycles := 4, mode := .ZeroPage_X },
  { code := 0xAC, mnemonic := "LDY", len := 3, cycles := 4, mode := .Absolute },
  { code := 0xBC, mnemonic := "LDY", len := 3, cycles := 4, mode := .Absolute_X },
  { code := 0x4A, mnemonic := "LSR", len := 1, cycles := 2, mode := .NoneAddressing },
  { code := 0xEA, mnemonic := "NOP", len := 1, cycles := 2, mode := .NoneAddressing },
  { code := 0x09, mnemonic := "ORA", len := 1, cycles := 2, mode := .NoneAddressing },
  { code := 0x48, mnemonic := "PHA", len := 1, cycles := 3, mode := .NoneAddressing },
  { code := 0x08, mnemonic := "PHP", len := 1, cycles := 3, mode := .NoneAddressing },
  { code := 0x68, mnemonic := "PLA", len := 1, cycles := 4, mode := .NoneAddressing },
  { code := 0x28, mnemonic := "PLP", len := 1, cycles := 4, mode := .NoneAddressing },
  { code := 0x2A, mnemonic := "ROL", len := 1, cycles := 2, mode := .NoneAddressing },
  { code := 0x6A, mnemonic := "ROR", len := 1, cycles := 2, mode := .NoneAddressing },
  { code := 0x40, mnemonic := "RTI", len := 1, cycles := 2, mode := .NoneAddressing },
  { code := 0x60, mnemonic := "RTS", len := 1, cycles := 2, mode := .NoneAddressing },
  { code := 0xE9, mnemonic := "SBC", len := 1, cycles := 2, mode := .NoneAddressing },
  { code := 0x38, mnemonic := "SEC", len := 1, cycles := 2, mode := .NoneAddressing },
  { code := 0xF8, mnemonic := "SED", len := 1, cycles := 2, mode := .NoneAddressing },
  { code := 0x78, mnemonic := "SEI", len := 1, cycles := 2, mode := .NoneAddressing },
  { code := 0x85, mnemonic := "STA", len := 2, cycles := 3, mode := .ZeroPage },
  { code := 0x95, mnemonic := "STA", len := 2, cycles := 4, mode := .ZeroPage_X },
  { code := 0x8D, mnemonic := "STA", len := 3, cycles := 4, mode := .Absolute },
  { code := 0x9D, mnemonic := "STA", len := 3, cycles := 5, mode := .Absolute_X },
  { code := 0x99, mnemonic := "STA", len := 3, cycles := 5, mode := .Absolute_Y },
  { code := 0x81, mnemonic := "STA", len := 2, cycles := 6, mode := .Indirect_X },
  { code := 0x91, mnemonic := "STA", len := 2, cycles := 6, mode := .Indirect_Y },
  { code := 0x86, mnemonic := "STX", len := 2, cycles := 3, mode := .ZeroPage },
  { code := 0x96, mnemonic := "STX", len := 2, cycles := 4, mode := .ZeroPage_Y },
  { code := 0x8E, mnemonic := "STX", len := 3, cycles := 4, mode := .Absolute },
  { code := 0x84, mnemonic := "STY", len := 2, cycles := 3, mode := .ZeroPage },
  { code := 0x94, mnemonic := "STY", len := 2, cycles := 4, mode := .ZeroPage_X },
  { code := 0x8C, mnemonic := "STY", len := 3, cycles := 4, mode := .Absolute },
  { code := 0xAA, mnemonic := "TAX", len := 1, cycles := 2, mode := .NoneAddressing },
  { code := 0xA8, mnemonic := "TAY", len := 1, cycles := 2, mode := .NoneAddressing },
  { code := 0xBA, mnemonic := "TSX", len := 1, cycles := 2, mode := .NoneAddressing },
  { code := 0x8A, mnemonic := "TXA", len := 1, cycles := 2, mode := .NoneAddressing },
  { code := 0x9A, mnemonic := "TXS", len := 1, cycles := 2, mode := .NoneAddressing },
  { code := 0x98, mnemonic := "TYA", len := 1, cycles := 2, mode := .NoneAddressing }
]

/-- `OPCODES_MAP` lookup; the vector's codes are pairwise distinct, so the
HashMap lookup equals the first list hit.  A missing code is the fatal
`.expect("OpCode ... is not recognized!")`: none. -/
def opcodeLookup (c : Nat) : Option OpCode :=
  List.find? (fun op => op.code == c) CPU_OPS_CODES

/-- `get_next_bytes` (cpu.rs lines 250-260), called by the trace `println!`:
its only machine-visible effect is the memory reads it performs (which can
panic); the formatted String is discarded here. -/
def get_next_bytes (s : MyCPU) (len : Nat) : Option Unit :=
  if len == 2 then (mem_read s s.program_counter).map fun _ => ()
  else if len == 3 then do
    let _ ← mem_read s s.program_counter
    let _ ← mem_read s (s.program_counter + 1)
    return ()
  else some ()

/-- Outcome of one dispatch: `halt` is the BRK `return`, `next` continues
the loop. -/
inductive StepOutcome where
  | halt (s : MyCPU)
  | next (s : MyCPU)

/-- The big `match code` of `run_with_callback` (cpu.rs lines 156-240),
arm for arm.  The final `_ => todo!()` is a panic: none. -/
def dispatch (code : Nat) (mode : AddressingMode) (s : MyCPU) : Option StepOutcome :=
  match code with
  | 0x00 => some (.halt s)
  | 0x69 | 0x65 | 0x75 | 0x6D | 0x7D | 0x79 | 0x61 | 0x71 => (adc s mode).map .next
  | 0x29 | 0x25 | 0x35 | 0x2D | 0x3D | 0x39 | 0x21 | 0x31 => (and s mode).map .next
  | 0x0A | 0x06 | 0x16 | 0x0E | 0x1E => (asl s mode).map .next
  | 0x90 => (bcc s).map .next
  | 0xB0 => (bcs s).map .next
  | 0xF0 => (beq s).map .next
  | 0x30 => (bmi s).map .next
  | 0xD0 => (bne s).map .next
  | 0x10 => (bpl s).map .next
  | 0x50 => (bvc s).map .next
  | 0x70 => (bvs s).map .next
  | 0x24 | 0x2C => (bit s mode).map .next
  | 0x18 => some (.next (clc s))
  | 0xD8 => some (.next (cld s))
  | 0x58 => some (.next (cli s))
  | 0xB8 => some (.next (clv s))
  | 0xC9 | 0xC5 | 0xD5 | 0xCD | 0xDD | 0xD9 | 0xC1 | 0xD1 => (cmp s mode).map .next
  | 0xE0 | 0xE4 | 0xEC => (cpx s mode).map .next
  | 0xC0 | 0xC4 | 0xCC => (cpy s mode).map .next
  | 0xC6 | 0xD6 | 0xCE | 0xDE => (dec s mode).map .next
  | 0xCA => some (.next (dex s))
  | 0x88 => some (.next (dey s))
  | 0x49 | 0x45 | 0x55 | 0x4D | 0x5D | 0x59 | 0x41 | 0x51 => (eor s mode).map .next
  | 0xE6 | 0xF6 | 0xEE | 0xFE => (inc s mode).map .next
  | 0xE8 => some (.next (inx s))
  | 0xC8 => some (.next (iny s))
  | 0x4C | 0x6C => (jmp s mode).map .next
  | 0x20 => (jsr s).map .next
  | 0xA9 | 0xA5 | 0xB5 | 0xAD | 0xBD | 0xB9 | 0xA1 | 0xB1 => (lda s mode).map .next
  | 0xA2 | 0xA6 | 0xB6 | 0xAE | 0xBE => (ldx s mode).map .next
  | 0xA0 | 0xA4 | 0xB4 | 0xAC | 0xBC => (ldy s mode).map .next
  | 0x4A | 0x46 | 0x56 | 0x4E | 0x5E => (lsr s mode).map .next
  | 0xEA => some (.next (nop s))
  | 0x09 | 0x05 | 0x15 | 0x0D | 0x1D | 0x19 | 0x01 | 0x11 => (ora s mode).map .next
  | 0x85 | 0x95 | 0x8D | 0x9D | 0x99 | 0x81 | 0x91 => (sta s mode).map .next
  | 0x86 | 0x96 | 0x8E => (stx s mode).map .next
  | 0x84 | 0x94 | 0x8C => (sty s mode).map .next
  | 0x48 => (pha s).map .next
  | 0x08 => (php s).map .next
  | 0x68 => (pla s).map .next
  | 0x28 => (plp s).map .next
  | 0x2A | 0x26 | 0x36 | 0x2E | 0x3E => (rol s mode).map .next
  | 0x6A | 0x66 | 0x76 | 0x6E | 0x7E => (ror s mode).map .next
  | 0x60 => (rts s).map .next
  | 0x40 => (rti s).map .next
  | 0xE9 | 0xE5 | 0xF5 | 0xED | 0xFD | 0xF9 | 0xE1 | 0xF1 => (sbc s mode).map .next
  | 0x38 => some (.next (sec s))
  | 0xF8 => some (.next (sed s))
  | 0x78 => some (.next (sei s))
  | 0xAA => some (.next (tax s))
  | 0xA8 => some (.next (tay s))
  | 0xBA => some (.next (tsx s))
  | 0x8A => some (.next (txa s))
  | 0x9A => some (.next (txs s))
  | 0x98 => some (.next (tya s))
  | _ => none

/-- One iteration of the `run_with_callback` loop: fetch the opcode at PC,
PC := PC + 1 (no u16 overflow is possible since the fetch bound-checked
PC ≤ 0xFFFE), record `program_counter_state`, look up the descriptor,
perform the trace-print reads, dispatch, and if the handler did not move PC
advance it by `len - 1`. -/
def step (s0 : MyCPU) : Option StepOutcome := do
  let code ← mem_read s0 s0.program_counter
  let s := { s0 with program_counter := s0.program_counter + 1 }
  let program_counter_state := s.program_counter
  let op ← opcodeLookup code
  let _ ← get_next_bytes s op.len
  let out ← dispatch code op.mode s
  match out with
  | .halt s1 => return .halt s1
  | .next s1 =>
    if program_counter_state = s1.program_counter then
      return .next { s1 with program_counter := s1.program_counter + (op.len - 1) }
    else
      return .next s1

/-- The `run` loop with explicit fuel: some is the normal BRK halt, none
is a panic (unknown opcode, resolver contract violation, memory bound) or
fuel exhaustion. -/
def run (fuel : Nat) (s : MyCPU) : Option MyCPU :=
  match fuel with
  | 0 => none
  | fuel + 1 =>
    match step s with
    | none => none
    | some (.halt s1) => some s1
    | some (.next s1) => run fuel s1

/-- Sequential byte copy underlying `copy_from_slice` in `load`. -/
def copy_bytes (m : Nat → Nat) (start : Nat) : List Nat → (Nat → Nat)
  | [] => m
  | b :: rest => copy_bytes (fun i => if i = start then b else m i) (start + 1) rest

/-- `load`: copy the program to 0x8000 (the slice write panics if it would
run past the array) and write 0x8000 into the reset vector 0xFFFC. -/
def load (s : MyCPU) (program : List Nat) : Option MyCPU :=
  if 0x8000 + program.length ≤ MEMORY_SIZE then
    mem_write_u16 { s with memory := copy_bytes s.memory 0x8000 program } 0xFFFC 0x8000
  else none

/-- `reset`: zero the registers, sp := 0xFF, status := INTERRUPT_DISABLE |
BREAK2, PC := 16-bit value at 0xFFFC. -/
def reset (s : MyCPU) : Option MyCPU := do
  let s1 := { s with register_a := 0, register_x := 0, register_y := 0,
                     stack_pointer := STACK_RESET,
                     status := INTERRUPT_DISABLE ||| BREAK2 }
  let pc ← mem_read_u16 s1 0xFFFC
  return { s1 with program_counter := pc }

/-- `load_reset_and_run` with explicit fuel for the run loop. -/
def load_reset_and_run (fuel : Nat) (s : MyCPU) (program : List Nat) : Option MyCPU := do
  let s1 ← load s program
  let s2 ← reset s1
  run fuel s2

namespace RefCpu

/-- `CPU::branch` of the reference snapshot ref_cpu.rs (lines 240-250): the
displacement byte is reinterpreted as i8 and `jump as u16` sign-extends, so
bytes 0x80-0xFF become 0xFF80-0xFFFF before the wrapping add. -/
def branch (s : MyCPU) (condition : Bool) : Option MyCPU :=
  if condition then do
    let jump ← mem_read s s.program_counter
    let jump16 := if jump < 0x80 then jump else jump + 0xFF00
    return { s with program_counter :=
      u16_wrapping_add (u16_wrapping_add s.program_counter 1) jump16 }
  else some s

/-- Operand transformation of `CPU::sbc` in ref_cpu.rs (lines 392-400):
`((value as i8).wrapping_neg().wrapping_sub(1)) as u8`.  i8 wrapping
negation and subtraction act on the two's-complement bit pattern, i.e. are
the u8 mod-256 operations on the byte. -/
def sbc_operand (value : Nat) : Nat := u8_wrapping_sub (u8_wrapping_neg value) 1

/-- `CPU::sbc` of ref_cpu.rs: ADC of the bitwise-inverted operand. -/
def sbc (s : MyCPU) (mode : AddressingMode) : Option MyCPU := do
  let addr ← get_operand_address s mode
  let value ← mem_read s addr
  return add_to_acc s (sbc_operand value)

end RefCpu

/-- Concrete CPU states used in the theorems below. -/
def adcWitnessState : MyCPU := { MyCPU.new with register_a := 0x7F }

/-- Taken branch at PC = 0x0600 whose displacement byte is 0xFF. -/
def branchFFState : MyCPU := { MyCPU.new with program_counter := 0x0600, memory := fun i => if i = 0x0600 then 0xFF else 0 }

/-- Accumulator 0x42, CARRY set, SBC immediate operand 0x21 at PC. -/
def sbcCarryState : MyCPU := { MyCPU.new with register_a := 0x42, status := insertFlag MyCPU.new.status CARRY, program_counter := 0x0600, memory := fun i => if i = 0x0600 then 0x21 else 0 }

/-- JMP indirect pointer 0x30FF with memory 0x30FF = 0x80, 0x3000 = 0x40,
0x3100 = 0x50. -/
def jmpPageState : MyCPU := { MyCPU.new with program_counter := 0x0600, memory := fun i => if i = 0x0600 then 0xFF else if i = 0x0601 then 0x30 else if i = 0x30FF then 0x80 else if i = 0x3000 then 0x40 else if i = 0x3100 then 0x50 else 0 }

/-- Zero-page rotate operand at 0x42 holding 0. -/
def rolZeroState : MyCPU := { MyCPU.new with program_counter := 0x0600, memory := fun i => if i = 0x0600 then 0x42 else 0 }

/-- Zero-page rotate operand at 0x42 holding 0x81. -/
def rotWitnessState : MyCPU := { MyCPU.new with program_counter := 0x0600, memory := fun i => if i = 0x0600 then 0x42 else if i = 0x42 then 0x81 else 0 }

/-- Status NEGATIVE, OVERFLOW, CARRY, INTERRUPT_DISABLE set before PHP/PLP. -/
def phpPlpState : MyCPU := { MyCPU.new with status := 0xC5 }

/-- Taken branch at PC = 0x8000 whose displacement byte is 0x80. -/
def branch80State : MyCPU := { MyCPU.new with program_counter := 0x8000, memory := fun i => if i = 0x8000 then 0x80 else 0 }

/-- Taken branch at PC = 0x0600 whose displacement byte is 0x10. -/
def branchFwdState : MyCPU := { MyCPU.new with program_counter := 0x0600, memory := fun i => if i = 0x0600 then 0x10 else 0 }

set_option maxRecDepth 8192 in
/-- Reading any flag after the CARRY/OVERFLOW/ZERO/NEGATIVE write chain of
`add_to_acc` recovers exactly the written booleans (for a status byte). -/
theorem flags_after_add_chain : ∀ st < 256, ∀ (bc bv bz bn : Bool),
    containsFlag (setFlag (setFlag (setFlag (setFlag st CARRY bc) OVERFLOW bv) ZERO bz) NEGATIVE bn) CARRY = bc ∧
    containsFlag (setFlag (setFlag (setFlag (setFlag st CARRY bc) OVERFLOW bv) ZERO bz) NEGATIVE bn) OVERFLOW = bv ∧
    containsFlag (setFlag (setFlag (setFlag (setFlag st CARRY bc) OVERFLOW bv) ZERO bz) NEGATIVE bn) ZERO = bz ∧
    containsFlag (setFlag (setFlag (setFlag (setFlag st CARRY bc) OVERFLOW bv) ZERO bz) NEGATIVE bn) NEGATIVE = bn := by
  decide

set_option maxRecDepth 8192 in
/-- The CARRY/NEGATIVE write chain of the memory rotate handlers: CARRY and
NEGATIVE read back as written and ZERO is untouched. -/
theorem flags_after_rotate_chain : ∀ st < 256, ∀ (bc bn : Bool),
    containsFlag (setFlag (setFlag st CARRY bc) NEGATIVE bn) CARRY = bc ∧
    containsFlag (setFlag (setFlag st CARRY bc) NEGATIVE bn) NEGATIVE = bn ∧
    containsFlag (setFlag (setFlag st CARRY bc) NEGATIVE bn) ZERO = containsFlag st ZERO := by
  decide

set_option maxRecDepth 8192 in
/-- Effect of the PHP write conventions followed by the PLP read conventions
on each flag of a status byte. -/
theorem flags_after_php_plp : ∀ st < 256,
    containsFlag (insertFlag (removeFlag (insertFlag (insertFlag st BREAK) BREAK2) BREAK) BREAK2) CARRY = containsFlag st CARRY ∧
    containsFlag (insertFlag (removeFlag (insertFlag (insertFlag st BREAK) BREAK2) BREAK) BREAK2) ZERO = containsFlag st ZERO ∧
    containsFlag (insertFlag (removeFlag (insertFlag (insertFlag st BREAK) BREAK2) BREAK) BREAK2) INTERRUPT_DISABLE = containsFlag st INTERRUPT_DISABLE ∧
    containsFlag (insertFlag (removeFlag (insertFlag (insertFlag st BREAK) BREAK2) BREAK) BREAK2) DECIMAL_MODE = containsFlag st DECIMAL_MODE ∧
    containsFlag (insertFlag (removeFlag (insertFlag (insertFlag st BREAK) BREAK2) BREAK) BREAK2) OVERFLOW = containsFlag st OVERFLOW ∧
    containsFlag (insertFlag (removeFlag (insertFlag (insertFlag st BREAK) BREAK2) BREAK) BREAK2) NEGATIVE = containsFlag st NEGATIVE ∧
    containsFlag (insertFlag (removeFlag (insertFlag (insertFlag st BREAK) BREAK2) BREAK) BREAK2) BREAK = false ∧
    containsFlag (insertFlag (removeFlag (insertFlag (insertFlag st BREAK) BREAK2) BREAK) BREAK2) BREAK2 = true := by
  decide

/-- A successful `mem_read` implies the address is inside the array. -/
theorem mem_read_bound {s : MyCPU} {addr v : Nat} (h : mem_read s addr = some v) :
    addr < MEMORY_SIZE := by
  by_contra hcon
  unfold mem_read at h
  rw [if_neg hcon] at h
  exact Option.noConfusion h

/-- C1: for every accumulator byte, operand byte and incoming carry bit,
`add_to_acc` (the ADC core) sets the accumulator to (a + b + carry) mod 256,
CARRY iff the 16-bit sum exceeds 255, OVERFLOW iff
((b XOR result) AND (result XOR a) AND 0x80) is nonzero, and ZERO/NEGATIVE
from the result. -/
theorem adc_add_to_acc_spec (s : MyCPU) (data : Nat)
    (_ha : s.register_a < 256) (_hd : data < 256) (hst : s.status < 256) :
    let c := if containsFlag s.status CARRY then 1 else 0
    let r := (s.register_a + data + c) % 256
    (add_to_acc s data).register_a = r ∧
    containsFlag (add_to_acc s data).status CARRY = decide (s.register_a + data + c > 0xFF) ∧
    containsFlag (add_to_acc s data).status OVERFLOW
      = ((data ^^^ r) &&& (r ^^^ s.register_a) &&& 0x80 != 0) ∧
    containsFlag (add_to_acc s data).status ZERO = (r == 0) ∧
    containsFlag (add_to_acc s data).status NEGATIVE = (r &&& 0x80 != 0) := by
  intro c r
  have h := flags_after_add_chain s.status hst
    (decide (s.register_a + data + c > 0xFF))
    ((data ^^^ r) &&& (r ^^^ s.register_a) &&& 0x80 != 0)
    (r == 0) (r &&& 0x80 != 0)
  exact ⟨rfl, h.1, h.2.1, h.2.2.1, h.2.2.2⟩

/-- Witness for C1 at the spec's own scenario: A = 0x7F, ADC operand 0x01,
carry clear, giving 0x80 with OVERFLOW set and CARRY clear. -/
theorem adc_add_to_acc_spec_witness :
    (add_to_acc adcWitnessState 1).register_a = 0x80 ∧
    containsFlag (add_to_acc adcWitnessState 1).status CARRY = false ∧
    containsFlag (add_to_acc adcWitnessState 1).status OVERFLOW = true ∧
    containsFlag (add_to_acc adcWitnessState 1).status ZERO = false ∧
    containsFlag (add_to_acc adcWitnessState 1).status NEGATIVE = true := by
  have h := adc_add_to_acc_spec adcWitnessState 1 (by decide) (by decide) (by decide)
  exact ⟨h.1, h.2.1, h.2.2.1, h.2.2.2.1, h.2.2.2.2⟩

/-- C2: evaluation of `MyCPU::branch` at a taken branch with displacement
byte 0xFF at PC = 0x0600.  The code zero-extends (`value as u16` on a u8)
and produces 0x0700, moving the program counter forward; the sign-extended
displacement demanded by the claim (0xFF extends to 0xFFFF) would give
0x0600, one byte backward. -/
theorem branch_ff_displacement_moves_pc_forward :
    ((branch branchFFState true).map MyCPU.program_counter) = some 0x0700 ∧
    u16_wrapping_add (u16_wrapping_add 0x0600 1) 0xFFFF = 0x0600 ∧
    (0x0700 : Nat) ≠ 0x0600 := by
  exact ⟨rfl, by decide, by decide⟩

/-- C3: evaluation of `sbc` at A = 0x42, CARRY set, operand 0x21.  The code
adds `value.wrapping_neg()` and produces 0x22; ADC of the bitwise-inverted
operand (the reference snapshot's `CPU::sbc`, whose operand transformation
equals `0xFF XOR value`) produces 0x21. -/
theorem sbc_wrapping_neg_differs_from_invert :
    ((sbc sbcCarryState .Immediate).map MyCPU.register_a) = some 0x22 ∧
    ((RefCpu.sbc sbcCarryState .Immediate).map MyCPU.register_a) = some 0x21 ∧
    RefCpu.sbc_operand 0x21 = 0xFF ^^^ 0x21 ∧
    (0x22 : Nat) ≠ 0x21 := by
  exact ⟨rfl, rfl, by decide, by decide⟩

/-- C4: the CPU's memory is the array `[u8; 0xFFFF]`, which holds only
65535 bytes: reading or writing the top address 0xFFFF panics (none) for
every CPU state, while 0xFFFE still succeeds — the capability is not total
on 0x0000-0xFFFF. -/
theorem memory_capability_not_total (s : MyCPU) :
    mem_read s 0xFFFF = none ∧ mem_write s 0xFFFF 0 = none ∧
    (mem_read s 0xFFFE).isSome = true := by
  exact ⟨rfl, rfl, rfl⟩

/-- C6: the opcode table assigns 0x4A (LSR accumulator) the NoneAddressing
mode, but `lsr` selects its accumulator variant only for the Immediate
mode, so executing it falls into the memory variant and dies in the
resolver's fatal NoneAddressing branch for every CPU state. -/
theorem lsr_accumulator_descriptor_panics :
    ((opcodeLookup 0x4A).map OpCode.mode) = some AddressingMode.NoneAddressing ∧
    ∀ s : MyCPU, lsr s .NoneAddressing = none := by
  exact ⟨rfl, fun s => rfl⟩

/-- Unfolding lemma for one non-redirecting iteration of the run loop. -/
theorem run_step_next {n : Nat} {s s1 : MyCPU} (h : step s = some (.next s1)) :
    run (n + 1) s = run n s1 := by
  have e : run (n + 1) s = match step s with
      | none => none
      | some (.halt s2) => some s2
      | some (.next s2) => run n s2 := rfl
  rw [e, h]

/-- Unfolding lemma for the halting iteration of the run loop. -/
theorem run_step_halt {n : Nat} {s s1 : MyCPU} (h : step s = some (.halt s1)) :
    run (n + 1) s = some s1 := by
  have e : run (n + 1) s = match step s with
      | none => none
      | some (.halt s2) => some s2
      | some (.next s2) => run n s2 := rfl
  rw [e, h]

/-- Bind of a present Option value. -/
theorem option_bind_some {A B : Type} (a : A) (f : A → Option B) :
    (some a : Option A) >>= f = f a := rfl

/-- Memory after `load MyCPU.new [0xA9, 0xC0, 0xAA, 0xE8, 0x00]`: the
program at 0x8000 and the reset vector 0x8000 at 0xFFFC/0xFFFD. -/
def prog5Mem : Nat → Nat := fun i =>
  if i = 0xFFFD then 0x80 else
  if i = 0xFFFC then 0x00 else
  copy_bytes (fun _ => 0) 0x8000 [0xA9, 0xC0, 0xAA, 0xE8, 0x00] i

/-- State right after load of the five-byte program. -/
def loadedState : MyCPU := { MyCPU.new with memory := prog5Mem }

/-- State right after reset for the five-byte program. -/
def runState0 : MyCPU where
  register_a := 0
  register_x := 0
  register_y := 0
  status := INTERRUPT_DISABLE ||| BREAK2
  program_counter := 0x8000
  stack_pointer := STACK_RESET
  memory := prog5Mem

/-- State after LDA #$C0. -/
def runState1 : MyCPU := { runState0 with register_a := 0xC0, status := 0xA4, program_counter := 0x8002 }

/-- State after TAX. -/
def runState2 : MyCPU := { runState1 with register_x := 0xC0, program_counter := 0x8003 }

/-- State after INX. -/
def runState3 : MyCPU := { runState2 with register_x := 0xC1, program_counter := 0x8004 }

/-- State at the BRK halt. -/
def runState4 : MyCPU := { runState3 with program_counter := 0x8005 }

set_option maxHeartbeats 4000000 in
/-- C9: loading [0xA9, 0xC0, 0xAA, 0xE8, 0x00] (LDA #$C0; TAX; INX; BRK)
into a fresh CPU, resetting and running terminates via the BRK halt (a
`some` result) with register_x = 0xC1 and PC advanced by length - 1 after
each non-redirecting instruction (final PC = 0x8005). -/
theorem five_ops_program_runs :
    ((load_reset_and_run 10 MyCPU.new [0xA9, 0xC0, 0xAA, 0xE8, 0x00]).map
        fun t => (t.register_x, t.program_counter)) = some (0xC1, 0x8005) := by
  have h0 : step runState0 = some (.next runState1) := rfl
  have h1 : step runState1 = some (.next runState2) := rfl
  have h2 : step runState2 = some (.next runState3) := rfl
  have h3 : step runState3 = some (.halt runState4) := rfl
  have hload : load MyCPU.new [0xA9, 0xC0, 0xAA, 0xE8, 0x00] = some loadedState := rfl
  have hreset : reset loadedState = some runState0 := rfl
  have hrun : run 10 runState0 = some runState4 :=
    calc run 10 runState0 = run 9 runState1 := run_step_next h0
      _ = run 8 runState2 := run_step_next h1
      _ = run 7 runState3 := run_step_next h2
      _ = some runState4 := run_step_halt h3
  have hlrr : load_reset_and_run 10 MyCPU.new [0xA9, 0xC0, 0xAA, 0xE8, 0x00]
      = some runState4 := by
    simp only [load_reset_and_run, hload, hreset, option_bind_some]
    exact hrun
  rw [hlrr]
  rfl

/-- C5: whenever `jmp` resolves a non-Absolute (indirect) target whose
pointer has low byte 0xFF, the target's high byte is read from
pointer AND 0xFF00 rather than pointer + 1. -/
theorem jmp_indirect_page_wrap (s : MyCPU) (mode : AddressingMode) (ptr lo hi : Nat)
    (hmode : mode ≠ .Absolute)
    (hptr : mem_read_u16 s s.program_counter = some ptr)
    (hlow : ptr &&& 0x00FF = 0x00FF)
    (hlo : mem_read s ptr = some lo)
    (hhi : mem_read s (ptr &&& 0xFF00) = some hi) :
    jmp s mode = some { s with program_counter := (hi <<< 8) ||| lo } := by
  simp only [jmp, hptr, option_bind_some, if_neg hmode, if_pos hlow, hlo, hhi]
  rfl

/-- Witness for C5 at the spec's scenario: pointer 0x30FF with
memory 0x30FF = 0x80, 0x3000 = 0x40, 0x3100 = 0x50 resolves to 0x4080
(and in particular not to 0x5080, the value 0x3100 would give). -/
theorem jmp_indirect_page_wrap_witness :
    jmp jmpPageState .NoneAddressing
      = some { jmpPageState with program_counter := 0x4080 } ∧ (0x4080 : Nat) ≠ 0x5080 :=
  ⟨jmp_indirect_page_wrap jmpPageState .NoneAddressing 0x30FF 0x80 0x40
      (by decide) rfl (by decide) rfl rfl,
    by decide⟩

/-- C7 counterexample: memory-addressed ROL of the value 0 (zero-page
operand at 0x42) writes back 0 yet leaves the ZERO flag clear, so the
memory rotate does not set ZERO iff the result is 0. -/
theorem rol_memory_zero_flag_counterexample :
    ((rol rolZeroState .ZeroPage).map fun t => (t.memory 0x42, containsFlag t.status ZERO))
      = some (0, false) := rfl

/-- C7 amended: for every memory-addressed ROL and ROR execution, CARRY
receives the bit shifted out, NEGATIVE is set iff bit 7 of the rotated
result is 1, and the result is written back to the operand address — but
the ZERO flag is left unchanged rather than recomputed. -/
theorem rol_ror_memory_spec (s : MyCPU) (mode : AddressingMode) (addr value : Nat)
    (hmode : mode ≠ .NoneAddressing) (hst : s.status < 256)
    (haddr : get_operand_address s mode = some addr)
    (hvalue : mem_read s addr = some value) :
    (∃ s1, rol s mode = some s1 ∧
      s1.memory addr = u8_rotate_left value ∧
      containsFlag s1.status CARRY = highest_bit_set value ∧
      containsFlag s1.status NEGATIVE = (u8_rotate_left value >>> 7 == 1) ∧
      containsFlag s1.status ZERO = containsFlag s.status ZERO) ∧
    (∃ s2, ror s mode = some s2 ∧
      s2.memory addr = u8_rotate_right value ∧
      containsFlag s2.status CARRY = lowest_bit_set value ∧
      containsFlag s2.status NEGATIVE = (u8_rotate_right value >>> 7 == 1) ∧
      containsFlag s2.status ZERO = containsFlag s.status ZERO) := by
  have haddrlt : addr < MEMORY_SIZE := mem_read_bound hvalue
  have hrolflags := flags_after_rotate_chain s.status hst
    (highest_bit_set value) (u8_rotate_left value >>> 7 == 1)
  have hrorflags := flags_after_rotate_chain s.status hst
    (lowest_bit_set value) (u8_rotate_right value >>> 7 == 1)
  have hrol : rol s mode = some { s with
      status := setFlag (setFlag s.status CARRY (highest_bit_set value)) NEGATIVE
        (u8_rotate_left value >>> 7 == 1),
      memory := fun i => if i = addr then u8_rotate_left value else s.memory i } := by
    simp only [rol, if_neg hmode, haddr, option_bind_some, hvalue, mem_write,
      if_pos haddrlt]
  have hror : ror s mode = some { s with
      status := setFlag (setFlag s.status CARRY (lowest_bit_set value)) NEGATIVE
        (u8_rotate_right value >>> 7 == 1),
      memory := fun i => if i = addr then u8_rotate_right value else s.memory i } := by
    simp only [ror, if_neg hmode, haddr, option_bind_some, hvalue, mem_write,
      if_pos haddrlt]
  constructor
  · exact ⟨_, hrol, by simp, hrolflags.1, hrolflags.2.1, hrolflags.2.2⟩
  · exact ⟨_, hror, by simp, hrorflags.1, hrorflags.2.1, hrorflags.2.2⟩

/-- Witness for C7 amended: zero-page rotate of 0x81 at address 0x42. -/
theorem rol_ror_memory_spec_witness :
    (∃ s1, rol rotWitnessState .ZeroPage = some s1 ∧
      s1.memory 0x42 = u8_rotate_left 0x81 ∧
      containsFlag s1.status CARRY = highest_bit_set 0x81 ∧
      containsFlag s1.status NEGATIVE = (u8_rotate_left 0x81 >>> 7 == 1) ∧
      containsFlag s1.status ZERO = containsFlag rotWitnessState.status ZERO) ∧
    (∃ s2, ror rotWitnessState .ZeroPage = some s2 ∧
      s2.memory 0x42 = u8_rotate_right 0x81 ∧
      containsFlag s2.status CARRY = lowest_bit_set 0x81 ∧
      containsFlag s2.status NEGATIVE = (u8_rotate_right 0x81 >>> 7 == 1) ∧
      containsFlag s2.status ZERO = containsFlag rotWitnessState.status ZERO) :=
  rol_ror_memory_spec rotWitnessState .ZeroPage 0x42 0x81 (by decide) (by decide) rfl rfl

/-- C8: for every status byte and stack state, PHP immediately followed by
PLP restores every flag except that BREAK is forced clear and BREAK2 is
forced set, and the stack pointer returns to its pre-PHP value. -/
theorem php_plp_roundtrip (s : MyCPU) (hst : s.status < 256) (hsp : s.stack_pointer < 256) :
    ∃ s2, (php s) >>= plp = some s2 ∧
      s2.stack_pointer = s.stack_pointer ∧
      containsFlag s2.status CARRY = containsFlag s.status CARRY ∧
      containsFlag s2.status ZERO = containsFlag s.status ZERO ∧
      containsFlag s2.status INTERRUPT_DISABLE = containsFlag s.status INTERRUPT_DISABLE ∧
      containsFlag s2.status DECIMAL_MODE = containsFlag s.status DECIMAL_MODE ∧
      containsFlag s2.status OVERFLOW = containsFlag s.status OVERFLOW ∧
      containsFlag s2.status NEGATIVE = containsFlag s.status NEGATIVE ∧
      containsFlag s2.status BREAK = false ∧
      containsFlag s2.status BREAK2 = true := by
  have haddr : STACK_AREA + s.stack_pointer < MEMORY_SIZE := by
    unfold STACK_AREA MEMORY_SIZE
    omega
  have hspr : u8_wrapping_add (u8_wrapping_sub s.stack_pointer 1) 1 = s.stack_pointer := by
    unfold u8_wrapping_add u8_wrapping_sub
    omega
  have hphp : php s = some { s with
      memory := fun i => if i = STACK_AREA + s.stack_pointer
        then insertFlag (insertFlag s.status BREAK) BREAK2 else s.memory i,
      stack_pointer := u8_wrapping_sub s.stack_pointer 1 } := by
    simp only [php, stack_push, mem_write, if_pos haddr, option_bind_some]
    rfl
  have hplp : plp { s with
      memory := fun i => if i = STACK_AREA + s.stack_pointer
        then insertFlag (insertFlag s.status BREAK) BREAK2 else s.memory i,
      stack_pointer := u8_wrapping_sub s.stack_pointer 1 }
      = some { s with
      memory := fun i => if i = STACK_AREA + s.stack_pointer
        then insertFlag (insertFlag s.status BREAK) BREAK2 else s.memory i,
      stack_pointer := s.stack_pointer,
      status := insertFlag (removeFlag (insertFlag (insertFlag s.status BREAK) BREAK2) BREAK) BREAK2 } := by
    simp only [plp, stack_pop, hspr, mem_read, if_pos haddr, option_bind_some]
    simp
  have hflags := flags_after_php_plp s.status hst
  have hcomp : (php s) >>= plp = some { s with
      memory := fun i => if i = STACK_AREA + s.stack_pointer
        then insertFlag (insertFlag s.status BREAK) BREAK2 else s.memory i,
      stack_pointer := s.stack_pointer,
      status := insertFlag (removeFlag (insertFlag (insertFlag s.status BREAK) BREAK2) BREAK) BREAK2 } := by
    rw [hphp, option_bind_some, hplp]
  exact ⟨_, hcomp, rfl, hflags.1, hflags.2.1, hflags.2.2.1, hflags.2.2.2.1,
    hflags.2.2.2.2.1, hflags.2.2.2.2.2.1, hflags.2.2.2.2.2.2.1, hflags.2.2.2.2.2.2.2⟩

/-- Witness for C8: status 0xC5 (NEGATIVE, OVERFLOW, CARRY, INTERRUPT),
stack pointer 0xFF. -/
theorem php_plp_roundtrip_witness :
    ∃ s2, (php phpPlpState) >>= plp = some s2 ∧
      s2.stack_pointer = phpPlpState.stack_pointer ∧
      containsFlag s2.status CARRY = containsFlag phpPlpState.status CARRY ∧
      containsFlag s2.status ZERO = containsFlag phpPlpState.status ZERO ∧
      containsFlag s2.status INTERRUPT_DISABLE = containsFlag phpPlpState.status INTERRUPT_DISABLE ∧
      containsFlag s2.status DECIMAL_MODE = containsFlag phpPlpState.status DECIMAL_MODE ∧
      containsFlag s2.status OVERFLOW = containsFlag phpPlpState.status OVERFLOW ∧
      containsFlag s2.status NEGATIVE = containsFlag phpPlpState.status NEGATIVE ∧
      containsFlag s2.status BREAK = false ∧
      containsFlag s2.status BREAK2 = true :=
  php_plp_roundtrip phpPlpState (by decide) (by decide)

/-- C10 counterexample: at PC = 0x8000 with displacement byte 0x80, the
live `MyCPU::branch` yields PC = 0x8081 while the reference snapshot's
`CPU::branch` yields PC = 0x7F81 — the two implementations are not
extensionally equal. -/
theorem branch_impls_differ_on_0x80 :
    ((branch branch80State true).map MyCPU.program_counter) = some 0x8081 ∧
    ((RefCpu.branch branch80State true).map MyCPU.program_counter) = some 0x7F81 ∧
    branch branch80State true ≠ RefCpu.branch branch80State true := by
  refine ⟨rfl, rfl, fun h => absurd (congrArg (Option.map MyCPU.program_counter) h) ?_⟩
  decide

/-- C10 amended: the live `MyCPU::branch` and the reference snapshot's
`CPU::branch` compute the same successor state whenever the displacement
byte is 0x00-0x7F (where zero- and sign-extension agree); for 0x80-0xFF
they differ, as the counterexample shows. -/
theorem branch_agrees_on_forward_displacement (s : MyCPU) (cond : Bool) (v : Nat)
    (hv : mem_read s s.program_counter = some v) (hsmall : v < 0x80) :
    branch s cond = RefCpu.branch s cond := by
  cases cond
  · rfl
  · simp only [branch, RefCpu.branch, if_true, hv, option_bind_some, if_pos hsmall]

/-- Witness for C10 amended: displacement byte 0x10 at PC = 0x0600. -/
theorem branch_agrees_on_forward_displacement_witness :
    branch branchFwdState true = RefCpu.branch branchFwdState true :=
  branch_agrees_on_forward_displacement branchFwdState true 0x10 rfl (by decide)

end Nes
